/-
Verification of the lead status transition engine and funnel KPI engine
of the onboarding dashboard backend.

Shallow embedding of:
  - backend/models/lead.py            (LeadStatus, Lead, LeadStatusHistory)
  - backend/services/lead_status.py   (ALLOWED_TRANSITIONS, is_transition_allowed,
                                       apply_status_transition)
  - backend/routers/leads.py          (create_lead, lines 123-142)
  - backend/services/lead_kpis.py     (_safe_rate, _lead_scope_filter,
                                       calculate_funnel_kpis, calculate_time_metrics)

Timestamps are modelled as integers (seconds); rates and hour values as
rationals.  The database is modelled as in-memory lists of leads and history
rows; insertion order of history rows is the list order.
-/
import Mathlib

namespace Onboarding

/-- `LeadStatus` from backend/models/lead.py: the ten lifecycle statuses. -/
inductive LeadStatus where
  | NEW_COLD
  | CALL_SCHEDULED
  | CONTACT_ESTABLISHED
  | FIRST_APPT_PENDING
  | FIRST_APPT_SCHEDULED
  | FIRST_APPT_COMPLETED
  | SECOND_APPT_SCHEDULED
  | SECOND_APPT_COMPLETED
  | CLOSED_WON
  | CLOSED_LOST
  deriving DecidableEq, Repr, Fintype

open LeadStatus

/-- The string `.value` of each status (backend/models/lead.py). -/
def LeadStatus.value : LeadStatus → String
  | NEW_COLD => "new_cold"
  | CALL_SCHEDULED => "call_scheduled"
  | CONTACT_ESTABLISHED => "contact_established"
  | FIRST_APPT_PENDING => "first_appt_pending"
  | FIRST_APPT_SCHEDULED => "first_appt_scheduled"
  | FIRST_APPT_COMPLETED => "first_appt_completed"
  | SECOND_APPT_SCHEDULED => "second_appt_scheduled"
  | SECOND_APPT_COMPLETED => "second_appt_completed"
  | CLOSED_WON => "closed_won"
  | CLOSED_LOST => "closed_lost"

/-- All ten statuses, in enum declaration order. -/
def allStatuses : List LeadStatus :=
  [NEW_COLD, CALL_SCHEDULED, CONTACT_ESTABLISHED, FIRST_APPT_PENDING,
   FIRST_APPT_SCHEDULED, FIRST_APPT_COMPLETED, SECOND_APPT_SCHEDULED,
   SECOND_APPT_COMPLETED, CLOSED_WON, CLOSED_LOST]

/-- `ALLOWED_TRANSITIONS` from backend/services/lead_status.py: the static
adjacency table mapping each status to the set of statuses it may move to.
Sets are modelled as lists; membership is what matters. -/
def ALLOWED_TRANSITIONS : LeadStatus → List LeadStatus
  | NEW_COLD => [CALL_SCHEDULED, CONTACT_ESTABLISHED, CLOSED_LOST]
  | CALL_SCHEDULED => [CALL_SCHEDULED, CONTACT_ESTABLISHED, CLOSED_LOST]
  | CONTACT_ESTABLISHED =>
      [FIRST_APPT_PENDING, FIRST_APPT_SCHEDULED, CALL_SCHEDULED, CLOSED_LOST]
  | FIRST_APPT_PENDING => [FIRST_APPT_SCHEDULED, CALL_SCHEDULED, CLOSED_LOST]
  | FIRST_APPT_SCHEDULED =>
      [FIRST_APPT_SCHEDULED, FIRST_APPT_COMPLETED, CLOSED_LOST]
  | FIRST_APPT_COMPLETED =>
      [SECOND_APPT_SCHEDULED, CALL_SCHEDULED, CLOSED_LOST]
  | SECOND_APPT_SCHEDULED =>
      [SECOND_APPT_SCHEDULED, SECOND_APPT_COMPLETED, CLOSED_LOST]
  | SECOND_APPT_COMPLETED => [CLOSED_WON, CLOSED_LOST]
  | CLOSED_WON => [CLOSED_WON]
  | CLOSED_LOST => [CLOSED_LOST]

/-- `is_transition_allowed` from backend/services/lead_status.py:
true when `current == target`, else when `target` is in the table's set
for `current`. -/
def is_transition_allowed (current target : LeadStatus) : Bool :=
  if current = target then true
  else target ∈ ALLOWED_TRANSITIONS current

/-- `LeadStatusHistory` row (backend/models/lead.py).  `meta` is the
schemaless JSON payload, modelled as a string key-value list. -/
structure LeadStatusHistory where
  lead_id : Nat
  changed_by_user_id : Option Nat
  from_status : LeadStatus
  to_status : LeadStatus
  changed_at : Int
  reason : Option String
  meta : Option (List (String × String))
  deriving DecidableEq, Repr

/-- `Lead` row (backend/models/lead.py), the fields the state machine and
KPI engine touch. -/
structure Lead where
  id : Nat
  owner_user_id : Nat
  team_id : Nat
  full_name : String
  phone : String
  email : Option String
  current_status : LeadStatus
  status_updated_at : Int
  last_activity_at : Option Int
  created_at : Int
  deriving DecidableEq, Repr

/-- The `ValueError` raised by `apply_status_transition`; its message embeds
the from- and to-status, modelled as the pair it carries. -/
structure InvalidTransition where
  from_status : LeadStatus
  to_status : LeadStatus
  deriving DecidableEq, Repr

/-- `apply_status_transition` from backend/services/lead_status.py, acting on
a single lead.  `now` is the wall clock (`datetime.utcnow()`).  On success it
returns the mutated lead together with the history row added to the session;
on an illegal transition it raises before touching anything. -/
def apply_status_transition (now : Int) (lead : Lead) (to_status : LeadStatus)
    (changed_by_user_id : Option Nat) (reason : Option String)
    (meta : Option (List (String × String))) (changed_at : Option Int) :
    Except InvalidTransition (Lead × LeadStatusHistory) :=
  if is_transition_allowed lead.current_status to_status then
    let event_time := changed_at.getD now
    let history : LeadStatusHistory :=
      { lead_id := lead.id
        changed_by_user_id := changed_by_user_id
        from_status := lead.current_status
        to_status := to_status
        changed_at := event_time
        reason := reason
        meta := meta }
    let lead' :=
      if lead.current_status ≠ to_status then
        { lead with
            current_status := to_status
            status_updated_at := event_time
            last_activity_at := some event_time }
      else
        { lead with last_activity_at := some event_time }
    .ok (lead', history)
  else
    .error ⟨lead.current_status, to_status⟩

/-- The persistent store: leads, the append-only history ledger (list order
is insertion order), and the autoincrement counter for lead ids. -/
structure Db where
  leads : List Lead
  history : List LeadStatusHistory
  nextLeadId : Nat
  deriving DecidableEq, Repr

def Db.empty : Db := ⟨[], [], 0⟩

/-- The history ledger of one lead, in insertion order. -/
def Db.ledger (db : Db) (lead_id : Nat) : List LeadStatusHistory :=
  db.history.filter (fun h => h.lead_id = lead_id)

/-- The transaction around `apply_status_transition`: look up the lead,
run the executor, and on success commit the mutated lead and the appended
history row; on failure roll back (the store is untouched). -/
def Db.applyTransition (db : Db) (now : Int) (lead_id : Nat)
    (to_status : LeadStatus) (changed_by_user_id : Option Nat)
    (reason : Option String) (meta : Option (List (String × String)))
    (changed_at : Option Int) : Except InvalidTransition Db :=
  match db.leads.find? (fun l => l.id = lead_id) with
  | none => .ok db
  | some lead =>
    match apply_status_transition now lead to_status changed_by_user_id
        reason meta changed_at with
    | .error e => .error e
    | .ok (lead', h) =>
      .ok { db with
              leads := db.leads.map (fun l => if l.id = lead_id then lead' else l)
              history := db.history ++ [h] }

/-- `create_lead` from backend/routers/leads.py (lines 123-142): construct the
lead with status NEW_COLD and server-defaulted timestamps, then apply the
bootstrap self-transition with reason "created".  The duplicate check
(lines 101-121) rejects a same-team lead with the same name and matching
phone/email; on rejection nothing is written. -/
def Db.createLead (db : Db) (now : Int) (owner_user_id team_id : Nat)
    (full_name phone : String) (email : Option String) :
    Db :=
  let duplicate := db.leads.any (fun l =>
    l.team_id = team_id && l.full_name = full_name &&
      (match email with
       | some e => l.email = some e || l.phone = phone
       | none => l.phone = phone))
  if duplicate then db
  else
    let lead : Lead :=
      { id := db.nextLeadId
        owner_user_id := owner_user_id
        team_id := team_id
        full_name := full_name
        phone := phone
        email := email
        current_status := LeadStatus.NEW_COLD
        status_updated_at := now
        last_activity_at := none
        created_at := now }
    let db' : Db :=
      { leads := db.leads ++ [lead]
        history := db.history
        nextLeadId := db.nextLeadId + 1 }
    match db'.applyTransition now lead.id LeadStatus.NEW_COLD
        (some owner_user_id) (some "created") none none with
    | .ok db'' => db''
    | .error _ => db'

/-- One externally driven operation on the store, as in §2's control flow:
lead creation, or a transition request on a lead (with optional explicit
effective time). -/
inductive Op where
  | create (now : Int) (owner_user_id team_id : Nat)
      (full_name phone : String) (email : Option String)
  | transition (now : Int) (lead_id : Nat) (to_status : LeadStatus)
      (changed_by_user_id : Option Nat) (reason : Option String)
      (meta : Option (List (String × String))) (changed_at : Option Int)
  deriving Repr

/-- Execute one operation; a rejected transition rolls back, leaving the
store unchanged. -/
def Db.applyOp (db : Db) : Op → Db
  | .create now owner team name phone email =>
      db.createLead now owner team name phone email
  | .transition now lead_id to_status by_user reason meta changed_at =>
      match db.applyTransition now lead_id to_status by_user reason meta
          changed_at with
      | .ok db' => db'
      | .error _ => db

/-- Run a sequence of operations from the empty store. -/
def runOps (ops : List Op) : Db :=
  ops.foldl Db.applyOp Db.empty

end Onboarding

namespace Onboarding

open LeadStatus

/-- C2: self-loops are always allowed (terminal statuses included); every
pair (S, T) with S ≠ T that is not an edge of the rule table is rejected;
in particular CLOSED_WON → CLOSED_LOST and
CONTACT_ESTABLISHED → SECOND_APPT_SCHEDULED are rejected. -/
theorem is_transition_allowed_characterization :
    (∀ S : LeadStatus, is_transition_allowed S S = true) ∧
    (∀ S T : LeadStatus, S ≠ T → T ∉ ALLOWED_TRANSITIONS S →
      is_transition_allowed S T = false) ∧
    is_transition_allowed CLOSED_WON CLOSED_LOST = false ∧
    is_transition_allowed CONTACT_ESTABLISHED SECOND_APPT_SCHEDULED = false := by
  refine ⟨?_, ?_, by decide, by decide⟩
  · intro S; simp [is_transition_allowed]
  · intro S T hne hmem
    simp [is_transition_allowed, hne, hmem]

/-- Full characterization of a successful `apply_status_transition`, shared
by the theorems below. -/
theorem transition_ok_spec (now : Int) (lead : Lead)
    (to_status : LeadStatus) (uid : Option Nat) (reason : Option String)
    (meta : Option (List (String × String))) (changed_at : Option Int)
    (hallow : is_transition_allowed lead.current_status to_status = true) :
    ∃ lead' h,
      apply_status_transition now lead to_status uid reason meta changed_at
        = .ok (lead', h) ∧
      lead'.id = lead.id ∧
      h.lead_id = lead.id ∧
      h.from_status = lead.current_status ∧
      h.to_status = to_status ∧
      h.changed_at = changed_at.getD now ∧
      lead'.current_status = to_status ∧
      lead'.last_activity_at = some (changed_at.getD now) ∧
      (to_status ≠ lead.current_status →
        lead'.status_updated_at = changed_at.getD now) ∧
      (to_status = lead.current_status →
        lead'.status_updated_at = lead.status_updated_at) ∧
      (∀ db : Db, db.leads.find? (fun l => l.id = lead.id) = some lead →
        db.applyTransition now lead.id to_status uid reason meta changed_at
          = .ok { db with
                    leads := db.leads.map
                      (fun l => if l.id = lead.id then lead' else l)
                    history := db.history ++ [h] }) := by
  by_cases hne : lead.current_status = to_status
  · have hself : is_transition_allowed to_status to_status = true := by
      simp [is_transition_allowed]
    refine ⟨{ lead with last_activity_at := some (changed_at.getD now) },
      ⟨lead.id, uid, lead.current_status, to_status, changed_at.getD now,
        reason, meta⟩, ?_, rfl, rfl, rfl, rfl, rfl, ?_, rfl, ?_, ?_, ?_⟩
    · simp [apply_status_transition, hallow, hself, hne]
    · exact hne
    · intro hcon; exact absurd hne.symm hcon
    · intro _; rfl
    · intro db hfind
      simp only [Db.applyTransition, hfind]
      simp [apply_status_transition, hallow, hself, hne]
  · refine ⟨{ lead with
        current_status := to_status
        status_updated_at := changed_at.getD now
        last_activity_at := some (changed_at.getD now) },
      ⟨lead.id, uid, lead.current_status, to_status, changed_at.getD now,
        reason, meta⟩, ?_, rfl, rfl, rfl, rfl, rfl, rfl, rfl, ?_, ?_, ?_⟩
    · simp [apply_status_transition, hallow, hne]
    · intro _; rfl
    · intro heq; exact absurd heq.symm hne
    · intro db hfind
      simp only [Db.applyTransition, hfind]
      simp [apply_status_transition, hallow, hne]

/-- C3: a legal transition succeeds; the returned history row records the
prior status as `from_status` and the requested one as `to_status`; the
lead's `current_status` becomes `to_status`; `last_activity_at` is stamped
even for self-transitions; `current_status`/`status_updated_at` change only
when `to_status` differs; at the store level exactly one history row is
appended. -/
theorem apply_status_transition_legal (now : Int) (lead : Lead)
    (to_status : LeadStatus) (uid : Option Nat) (reason : Option String)
    (meta : Option (List (String × String))) (changed_at : Option Int)
    (hallow : is_transition_allowed lead.current_status to_status = true) :
    ∃ lead' h,
      apply_status_transition now lead to_status uid reason meta changed_at
        = .ok (lead', h) ∧
      h.from_status = lead.current_status ∧
      h.to_status = to_status ∧
      h.changed_at = changed_at.getD now ∧
      lead'.current_status = to_status ∧
      lead'.last_activity_at = some (changed_at.getD now) ∧
      (to_status ≠ lead.current_status →
        lead'.status_updated_at = changed_at.getD now) ∧
      (to_status = lead.current_status →
        lead'.status_updated_at = lead.status_updated_at) ∧
      (∀ db : Db, db.leads.find? (fun l => l.id = lead.id) = some lead →
        db.applyTransition now lead.id to_status uid reason meta changed_at
          = .ok { db with
                    leads := db.leads.map
                      (fun l => if l.id = lead.id then lead' else l)
                    history := db.history ++ [h] }) := by
  obtain ⟨lead', h, hok, _, _, hfrom, hto, hch, hcur, hact, hupd, hsame,
      hdb⟩ :=
    transition_ok_spec now lead to_status uid reason meta changed_at hallow
  exact ⟨lead', h, hok, hfrom, hto, hch, hcur, hact, hupd, hsame, hdb⟩

/-- Witness for C3: transitioning a concrete lead from NEW_COLD to
CALL_SCHEDULED. -/
theorem apply_status_transition_legal_witness :
    is_transition_allowed LeadStatus.NEW_COLD LeadStatus.CALL_SCHEDULED
        = true ∧
    ∃ lead' h,
      apply_status_transition 100
          ⟨0, 1, 1, "A", "p", none, LeadStatus.NEW_COLD, 50, none, 50⟩
          LeadStatus.CALL_SCHEDULED (some 1) none none none
        = .ok (lead', h) ∧
      h.from_status = LeadStatus.NEW_COLD ∧
      h.to_status = LeadStatus.CALL_SCHEDULED ∧
      h.changed_at = (none : Option Int).getD 100 ∧
      lead'.current_status = LeadStatus.CALL_SCHEDULED ∧
      lead'.last_activity_at = some ((none : Option Int).getD 100) ∧
      (LeadStatus.CALL_SCHEDULED ≠ LeadStatus.NEW_COLD →
        lead'.status_updated_at = (none : Option Int).getD 100) ∧
      (LeadStatus.CALL_SCHEDULED = LeadStatus.NEW_COLD →
        lead'.status_updated_at = 50) ∧
      (∀ db : Db, db.leads.find? (fun l => l.id = 0)
          = some ⟨0, 1, 1, "A", "p", none, LeadStatus.NEW_COLD, 50, none, 50⟩ →
        db.applyTransition 100 0 LeadStatus.CALL_SCHEDULED (some 1) none none
            none
          = .ok { db with
                    leads := db.leads.map
                      (fun l => if l.id = 0 then lead' else l)
                    history := db.history ++ [h] }) :=
  ⟨by decide,
    apply_status_transition_legal 100
      ⟨0, 1, 1, "A", "p", none, LeadStatus.NEW_COLD, 50, none, 50⟩
      LeadStatus.CALL_SCHEDULED (some 1) none none none (by decide)⟩

/-- C4: an illegal transition raises `InvalidTransition` carrying the from-
and to-status, and the store rolls back unchanged: no history row, no field
update. -/
theorem apply_status_transition_illegal (now : Int) (lead : Lead)
    (to_status : LeadStatus) (uid : Option Nat) (reason : Option String)
    (meta : Option (List (String × String))) (changed_at : Option Int)
    (hallow : is_transition_allowed lead.current_status to_status = false) :
    apply_status_transition now lead to_status uid reason meta changed_at
      = .error ⟨lead.current_status, to_status⟩ ∧
    ∀ db : Db, db.leads.find? (fun l => l.id = lead.id) = some lead →
      db.applyTransition now lead.id to_status uid reason meta changed_at
        = .error ⟨lead.current_status, to_status⟩ ∧
      db.applyOp (.transition now lead.id to_status uid reason meta changed_at)
        = db := by
  have herr : apply_status_transition now lead to_status uid reason meta
      changed_at = .error ⟨lead.current_status, to_status⟩ := by
    simp [apply_status_transition, hallow]
  refine ⟨herr, ?_⟩
  intro db hfind
  have htr : db.applyTransition now lead.id to_status uid reason meta
      changed_at = .error ⟨lead.current_status, to_status⟩ := by
    simp only [Db.applyTransition, hfind, herr]
  exact ⟨htr, by simp only [Db.applyOp, htr]⟩

/-- Witness for C4: CLOSED_WON → CLOSED_LOST is rejected and nothing is
written. -/
theorem apply_status_transition_illegal_witness :
    is_transition_allowed LeadStatus.CLOSED_WON LeadStatus.CLOSED_LOST
        = false ∧
    (apply_status_transition 100
        ⟨0, 1, 1, "A", "p", none, LeadStatus.CLOSED_WON, 50, none, 50⟩
        LeadStatus.CLOSED_LOST (some 1) none none none
      = .error ⟨LeadStatus.CLOSED_WON, LeadStatus.CLOSED_LOST⟩ ∧
    ∀ db : Db, db.leads.find? (fun l => l.id = 0)
        = some ⟨0, 1, 1, "A", "p", none, LeadStatus.CLOSED_WON, 50, none, 50⟩ →
      db.applyTransition 100 0 LeadStatus.CLOSED_LOST (some 1) none none none
        = .error ⟨LeadStatus.CLOSED_WON, LeadStatus.CLOSED_LOST⟩ ∧
      db.applyOp (.transition 100 0 LeadStatus.CLOSED_LOST (some 1) none none
          none) = db) :=
  ⟨by decide,
    apply_status_transition_illegal 100
      ⟨0, 1, 1, "A", "p", none, LeadStatus.CLOSED_WON, 50, none, 50⟩
      LeadStatus.CLOSED_LOST (some 1) none none none (by decide)⟩

/-- C8: the effective timestamp is the supplied `changed_at` when present
and the wall clock otherwise, and success depends only on the transition
table — any explicit effective time, however far in the past (earlier than
`created_at` included) or future, is accepted. -/
theorem apply_status_transition_effective_time (now : Int) (lead : Lead)
    (to_status : LeadStatus) (uid : Option Nat) (reason : Option String)
    (meta : Option (List (String × String)))
    (hallow : is_transition_allowed lead.current_status to_status = true) :
    (∀ t : Int, ∃ lead' h,
      apply_status_transition now lead to_status uid reason meta (some t)
        = .ok (lead', h) ∧
      h.changed_at = t ∧ lead'.last_activity_at = some t) ∧
    (∃ lead' h,
      apply_status_transition now lead to_status uid reason meta none
        = .ok (lead', h) ∧
      h.changed_at = now ∧ lead'.last_activity_at = some now) := by
  constructor
  · intro t
    obtain ⟨lead', h, hok, _, _, _, _, hchanged, _, hact, -⟩ :=
      transition_ok_spec now lead to_status uid reason meta (some t) hallow
    exact ⟨lead', h, hok, hchanged, hact⟩
  · obtain ⟨lead', h, hok, _, _, _, _, hchanged, _, hact, -⟩ :=
      transition_ok_spec now lead to_status uid reason meta none hallow
    exact ⟨lead', h, hok, hchanged, hact⟩

/-- Witness for C8: a backdated transition (effective time 10, lead created
at 50) succeeds and is stamped with the backdated time. -/
theorem apply_status_transition_effective_time_witness :
    is_transition_allowed LeadStatus.NEW_COLD LeadStatus.CALL_SCHEDULED
        = true ∧
    (10 : Int) < 50 ∧
    (∃ lead' h,
      apply_status_transition 100
          ⟨0, 1, 1, "A", "p", none, LeadStatus.NEW_COLD, 50, none, 50⟩
          LeadStatus.CALL_SCHEDULED (some 1) none none (some 10)
        = .ok (lead', h) ∧
      h.changed_at = 10 ∧ lead'.last_activity_at = some 10) :=
  ⟨by decide, by decide,
    (apply_status_transition_effective_time 100
      ⟨0, 1, 1, "A", "p", none, LeadStatus.NEW_COLD, 50, none, 50⟩
      LeadStatus.CALL_SCHEDULED (some 1) none none (by decide)).1 10⟩

/-- C10: on success, the returned history row's `changed_at` equals the
lead's `last_activity_at`, and when the status actually changed it also
equals `status_updated_at` — all stamped from the one effective time. -/
theorem apply_status_transition_timestamps_agree (now : Int) (lead : Lead)
    (to_status : LeadStatus) (uid : Option Nat) (reason : Option String)
    (meta : Option (List (String × String))) (changed_at : Option Int)
    (lead' : Lead) (h : LeadStatusHistory)
    (hok : apply_status_transition now lead to_status uid reason meta
      changed_at = .ok (lead', h)) :
    lead'.last_activity_at = some h.changed_at ∧
    (to_status ≠ lead.current_status →
      lead'.status_updated_at = h.changed_at) := by
  by_cases hallow : is_transition_allowed lead.current_status to_status
  · obtain ⟨lead'', h'', hok'', _, _, _, _, hchanged, _, hact, hupd, -⟩ :=
      transition_ok_spec now lead to_status uid reason meta changed_at hallow
    rw [hok''] at hok
    obtain ⟨hl, hh⟩ : lead'' = lead' ∧ h'' = h := by
      have := hok
      injection this with this'
      exact ⟨congrArg Prod.fst this', congrArg Prod.snd this'⟩
    subst hl; subst hh
    exact ⟨hact.trans (congrArg some hchanged.symm),
      fun hne => (hupd hne).trans hchanged.symm⟩
  · simp only [Bool.not_eq_true] at hallow
    simp [apply_status_transition, hallow] at hok

/-- Witness for C10: a concrete successful transition where all three
timestamp fields agree. -/
theorem apply_status_transition_timestamps_agree_witness :
    ∃ lead' h,
      apply_status_transition 100
          ⟨0, 1, 1, "A", "p", none, LeadStatus.NEW_COLD, 50, none, 50⟩
          LeadStatus.CALL_SCHEDULED (some 1) none none (some 70)
        = .ok (lead', h) ∧
      lead'.last_activity_at = some h.changed_at ∧
      (LeadStatus.CALL_SCHEDULED ≠ LeadStatus.NEW_COLD →
        lead'.status_updated_at = h.changed_at) := by
  refine ⟨⟨0, 1, 1, "A", "p", none, LeadStatus.CALL_SCHEDULED, 70, some 70,
      50⟩,
    ⟨0, some 1, LeadStatus.NEW_COLD, LeadStatus.CALL_SCHEDULED, 70, none,
      none⟩, ?_, ?_⟩
  · rfl
  · exact apply_status_transition_timestamps_agree 100
      ⟨0, 1, 1, "A", "p", none, LeadStatus.NEW_COLD, 50, none, 50⟩
      LeadStatus.CALL_SCHEDULED (some 1) none none (some 70) _ _ rfl

/-- The most recent ledger entry ordered by `changed_at`, ties broken in
favour of the later-inserted entry (list order is insertion order). -/
def mostRecentByTimestamp (entries : List LeadStatusHistory) :
    Option LeadStatusHistory :=
  entries.foldl
    (fun acc h =>
      match acc with
      | none => some h
      | some m => if m.changed_at ≤ h.changed_at then some h else some m)
    none

/-- Well-formedness of the store: every lead id and history lead id is below
the autoincrement counter, lead ids are unique, and the cached
`current_status` of every lead agrees with the last-inserted entry of its
ledger. -/
def Db.Inv (db : Db) : Prop :=
  (∀ l ∈ db.leads, l.id < db.nextLeadId) ∧
  (∀ h ∈ db.history, h.lead_id < db.nextLeadId) ∧
  (db.leads.map Lead.id).Nodup ∧
  ∀ l ∈ db.leads,
    ((db.ledger l.id).getLast?).map LeadStatusHistory.to_status
      = some l.current_status

theorem inv_empty : Db.empty.Inv := by
  refine ⟨?_, ?_, ?_, ?_⟩ <;> simp [Db.empty, Db.Inv]

/-- Appending a history row for one lead and replacing that lead preserves
the store invariant.  This is the common commit shape produced by
`transition_ok_spec`'s store clause. -/
theorem inv_commit (db : Db) (lead lead' : Lead) (h : LeadStatusHistory)
    (hinv : db.Inv) (hmem : lead ∈ db.leads)
    (hlid' : lead'.id = lead.id) (hhlid : h.lead_id = lead.id)
    (hagree : h.to_status = lead'.current_status) :
    Db.Inv { db with
               leads := db.leads.map
                 (fun l => if l.id = lead.id then lead' else l)
               history := db.history ++ [h] } := by
  obtain ⟨hids, hhist, hnodup, hledger⟩ := hinv
  refine ⟨?_, ?_, ?_, ?_⟩
  · intro l' hl'
    obtain ⟨l, hl, rfl⟩ := List.mem_map.mp hl'
    by_cases hc : l.id = lead.id
    · simpa [hc, hlid'] using hids lead hmem
    · simpa [hc] using hids l hl
  · intro h' hh'
    rcases List.mem_append.mp hh' with hh' | hh'
    · exact hhist h' hh'
    · simp only [List.mem_singleton] at hh'
      subst hh'
      simpa [hhlid] using hids lead hmem
  · have hmapid : (db.leads.map
        (fun l => if l.id = lead.id then lead' else l)).map Lead.id
          = db.leads.map Lead.id := by
      rw [List.map_map]
      apply List.map_congr_left
      intro l _
      by_cases hc : l.id = lead.id
      · simp [Function.comp, hc, hlid']
      · simp [Function.comp, hc]
    simpa [hmapid] using hnodup
  · intro l' hl'
    obtain ⟨l, hl, rfl⟩ := List.mem_map.mp hl'
    by_cases hc : l.id = lead.id
    · rw [if_pos hc]
      have hfilter : (db.history ++ [h]).filter
          (fun x => x.lead_id = lead'.id)
            = db.history.filter (fun x => x.lead_id = lead'.id) ++ [h] := by
        rw [List.filter_append]
        simp [hlid', hhlid]
      simp only [Db.ledger, hfilter, List.getLast?_concat]
      simp [hagree]
    · rw [if_neg hc]
      have hfilter : (db.history ++ [h]).filter (fun x => x.lead_id = l.id)
            = db.history.filter (fun x => x.lead_id = l.id) := by
        rw [List.filter_append]
        have hne : ¬ h.lead_id = l.id := by
          rw [hhlid]
          exact fun hx => hc hx.symm
        simp [hne]
      simpa only [Db.ledger, hfilter] using hledger l hl

/-- A transition operation preserves the store invariant. -/
theorem inv_applyTransition (db : Db) (now : Int) (lid : Nat)
    (to_status : LeadStatus) (uid : Option Nat) (reason : Option String)
    (meta : Option (List (String × String))) (changed_at : Option Int)
    (hinv : db.Inv) (db' : Db)
    (hok : db.applyTransition now lid to_status uid reason meta changed_at
      = .ok db') : db'.Inv := by
  rcases hfind : db.leads.find? (fun l => l.id = lid) with _ | lead
  · simp only [Db.applyTransition, hfind, Except.ok.injEq] at hok
    subst hok
    exact hinv
  · have hmem : lead ∈ db.leads := List.mem_of_find?_eq_some hfind
    have hid : lead.id = lid := by
      have := List.find?_some hfind
      simpa using this
    subst hid
    by_cases hallow : is_transition_allowed lead.current_status to_status
    · obtain ⟨lead', h, happ, hlid', hhlid, hfrom, hto, hch, hcur, hact,
        hupd, hsame, hdb⟩ :=
        transition_ok_spec now lead to_status uid reason meta changed_at
          hallow
      have hcommit := hdb db hfind
      rw [hcommit, Except.ok.injEq] at hok
      subst hok
      exact inv_commit db lead lead' h hinv hmem hlid' hhlid
        (hto.trans hcur.symm)
    · have herr : apply_status_transition now lead to_status uid reason meta
          changed_at = .error ⟨lead.current_status, to_status⟩ := by
        simp only [Bool.not_eq_true] at hallow
        simp [apply_status_transition, hallow]
      simp only [Db.applyTransition, hfind, herr] at hok
      cases hok

/-- In the non-duplicate case, `createLead` commits the fresh lead together
with its bootstrap history entry. -/
theorem createLead_run (db : Db) (now : Int) (owner team : Nat)
    (name phone : String) (email : Option String)
    (hids : ∀ l ∈ db.leads, l.id < db.nextLeadId)
    (hdup : (db.leads.any (fun l =>
      l.team_id = team && l.full_name = name &&
        (match email with
         | some e => l.email = some e || l.phone = phone
         | none => l.phone = phone))) = false) :
    db.createLead now owner team name phone email
      = { leads := db.leads ++
            [⟨db.nextLeadId, owner, team, name, phone, email,
              LeadStatus.NEW_COLD, now, some now, now⟩]
          history := db.history ++
            [⟨db.nextLeadId, some owner, LeadStatus.NEW_COLD,
              LeadStatus.NEW_COLD, now, some "created", none⟩]
          nextLeadId := db.nextLeadId + 1 } := by
  have hfind : (db.leads ++
      [(⟨db.nextLeadId, owner, team, name, phone, email,
        LeadStatus.NEW_COLD, now, none, now⟩ : Lead)]).find?
          (fun l => l.id = db.nextLeadId)
        = some ⟨db.nextLeadId, owner, team, name, phone, email,
            LeadStatus.NEW_COLD, now, none, now⟩ := by
    rw [List.find?_append]
    have h1 : db.leads.find? (fun l => l.id = db.nextLeadId) = none := by
      rw [List.find?_eq_none]
      intro l hl
      simpa using Nat.ne_of_lt (hids l hl)
    rw [h1]
    simp [List.find?]
  have hmapid : db.leads.map (fun l =>
      if l.id = db.nextLeadId
      then (⟨db.nextLeadId, owner, team, name, phone, email,
        LeadStatus.NEW_COLD, now, some now, now⟩ : Lead)
      else l) = db.leads := by
    have hcongr : ∀ l ∈ db.leads, (if l.id = db.nextLeadId
        then (⟨db.nextLeadId, owner, team, name, phone, email,
          LeadStatus.NEW_COLD, now, some now, now⟩ : Lead)
        else l) = id l := by
      intro l hl
      simp [Nat.ne_of_lt (hids l hl)]
    rw [List.map_congr_left hcongr, List.map_id]
  simp only [Db.createLead, hdup, Bool.false_eq_true, if_false,
    Db.applyTransition, hfind, apply_status_transition]
  simp only [show is_transition_allowed LeadStatus.NEW_COLD
      LeadStatus.NEW_COLD = true from rfl]
  simp [List.map_append, hmapid]

/-- Lead creation preserves the store invariant. -/
theorem inv_createLead (db : Db) (now : Int) (owner team : Nat)
    (name phone : String) (email : Option String) (hinv : db.Inv) :
    (db.createLead now owner team name phone email).Inv := by
  obtain ⟨hids, hhist, hnodup, hledger⟩ := hinv
  by_cases hdup : (db.leads.any (fun l =>
      l.team_id = team && l.full_name = name &&
        (match email with
         | some e => l.email = some e || l.phone = phone
         | none => l.phone = phone))) = true
  · simp only [Db.createLead, hdup, if_pos]
    exact ⟨hids, hhist, hnodup, hledger⟩
  · rw [Bool.not_eq_true] at hdup
    rw [createLead_run db now owner team name phone email hids hdup]
    refine ⟨?_, ?_, ?_, ?_⟩
    · intro l hl
      rcases List.mem_append.mp hl with hl | hl
      · exact Nat.lt_succ_of_lt (hids l hl)
      · simp only [List.mem_singleton] at hl
        subst hl
        exact Nat.lt_succ_self _
    · intro h' hh'
      rcases List.mem_append.mp hh' with hh' | hh'
      · exact Nat.lt_succ_of_lt (hhist h' hh')
      · simp only [List.mem_singleton] at hh'
        subst hh'
        exact Nat.lt_succ_self _
    · simp only [List.map_append, List.map_cons, List.map_nil]
      rw [List.nodup_append]
      refine ⟨hnodup, List.nodup_singleton _, ?_⟩
      intro x hx hx'
      simp only [List.mem_singleton] at hx'
      subst hx'
      obtain ⟨l, hl, hxl⟩ := List.mem_map.mp hx
      exact absurd hxl (Nat.ne_of_lt (hids l hl))
    · intro l hl
      rcases List.mem_append.mp hl with hl | hl
      · have hfilter : (db.history ++
            [(⟨db.nextLeadId, some owner, LeadStatus.NEW_COLD,
              LeadStatus.NEW_COLD, now, some "created", none⟩ :
                LeadStatusHistory)]).filter (fun x => x.lead_id = l.id)
              = db.history.filter (fun x => x.lead_id = l.id) := by
          rw [List.filter_append]
          have hne : db.nextLeadId ≠ l.id :=
            fun hx => absurd hx.symm (Nat.ne_of_lt (hids l hl))
          simp [hne]
        simpa only [Db.ledger, hfilter] using hledger l hl
      · simp only [List.mem_singleton] at hl
        subst hl
        have hfilter : (db.history ++
            [(⟨db.nextLeadId, some owner, LeadStatus.NEW_COLD,
              LeadStatus.NEW_COLD, now, some "created", none⟩ :
                LeadStatusHistory)]).filter
                  (fun x => x.lead_id = db.nextLeadId)
              = [⟨db.nextLeadId, some owner, LeadStatus.NEW_COLD,
                  LeadStatus.NEW_COLD, now, some "created", none⟩] := by
          rw [List.filter_append]
          have h1 : db.history.filter (fun x => x.lead_id = db.nextLeadId)
              = [] := by
            rw [List.filter_eq_nil_iff]
            intro x hx
            simpa using Nat.ne_of_lt (hhist x hx)
          rw [h1]
          simp
        simp only [Db.ledger, hfilter]
        rfl

/-- Every operation preserves the store invariant. -/
theorem inv_applyOp (db : Db) (op : Op) (hinv : db.Inv) :
    (db.applyOp op).Inv := by
  cases op with
  | create now owner team name phone email =>
    exact inv_createLead db now owner team name phone email hinv
  | transition now lead_id to_status uid reason meta changed_at =>
    rcases htr : db.applyTransition now lead_id to_status uid reason meta
        changed_at with e | db'
    · simp only [Db.applyOp, htr]
      exact hinv
    · simp only [Db.applyOp, htr]
      exact inv_applyTransition db now lead_id to_status uid reason meta
        changed_at hinv db' htr

theorem foldl_inv (ops : List Op) (db : Db) (hinv : db.Inv) :
    (ops.foldl Db.applyOp db).Inv := by
  induction ops generalizing db with
  | nil => exact hinv
  | cons op rest ih =>
    exact ih (db.applyOp op) (inv_applyOp db op hinv)

theorem runOps_inv (ops : List Op) : (runOps ops).Inv :=
  foldl_inv ops Db.empty inv_empty

/-- C1 (amended): after any sequence of lead creations and
`apply_status_transition` operations, every lead's `current_status` equals
the `to_status` of the most recently INSERTED entry of that lead's history
ledger (which is nonempty).  The claim's timestamp ordering fails when an
explicit past `effective_time` is used — see the counterexample. -/
theorem current_status_eq_last_inserted_entry (ops : List Op) :
    ∀ lead ∈ (runOps ops).leads,
      (runOps ops).ledger lead.id ≠ [] ∧
      ((runOps ops).ledger lead.id).getLast?.map
          LeadStatusHistory.to_status = some lead.current_status := by
  intro lead hmem
  have h4 := (runOps_inv ops).2.2.2 lead hmem
  refine ⟨?_, h4⟩
  intro hnil
  rw [hnil] at h4
  simp at h4

/-- Witness for C1 (amended): a single created lead, whose ledger holds
exactly its bootstrap entry. -/
theorem current_status_eq_last_inserted_entry_witness :
    (⟨0, 1, 1, "A", "p", none, LeadStatus.NEW_COLD, 10, some 10, 10⟩ : Lead)
        ∈ (runOps [.create 10 1 1 "A" "p" none]).leads ∧
    ((runOps [.create 10 1 1 "A" "p" none]).ledger 0 ≠ [] ∧
      ((runOps [.create 10 1 1 "A" "p" none]).ledger 0).getLast?.map
          LeadStatusHistory.to_status = some LeadStatus.NEW_COLD) :=
  ⟨by decide,
    current_status_eq_last_inserted_entry [.create 10 1 1 "A" "p" none]
      ⟨0, 1, 1, "A", "p", none, LeadStatus.NEW_COLD, 10, some 10, 10⟩
      (by decide)⟩

/-- A creation at time 10 followed by a legal transition recorded with the
backdated effective time 5. -/
def backdatedOps : List Op :=
  [.create 10 1 1 "A" "p" none,
   .transition 20 0 LeadStatus.CALL_SCHEDULED (some 1) none none (some 5)]

/-- Counterexample to C1 as stated: after a backdated transition the lead's
`current_status` is CALL_SCHEDULED, but the most recent ledger entry by
`changed_at` (ties broken by insertion order) is the bootstrap entry with
`to_status` NEW_COLD — the denormalized column disagrees with the
timestamp-ordered ledger. -/
theorem current_status_timestamp_order_counterexample :
    (runOps backdatedOps).leads.map Lead.current_status
        = [LeadStatus.CALL_SCHEDULED] ∧
    ((runOps backdatedOps).ledger 0).map LeadStatusHistory.to_status
        = [LeadStatus.NEW_COLD, LeadStatus.CALL_SCHEDULED] ∧
    (mostRecentByTimestamp ((runOps backdatedOps).ledger 0)).map
        LeadStatusHistory.to_status = some LeadStatus.NEW_COLD ∧
    ∃ lead ∈ (runOps backdatedOps).leads,
      (mostRecentByTimestamp ((runOps backdatedOps).ledger lead.id)).map
          LeadStatusHistory.to_status ≠ some lead.current_status := by
  decide

/-- `_safe_rate` from backend/services/lead_kpis.py: `numerator /
denominator` when the denominator is positive, else 0.  Rates are modelled
as rationals. -/
def _safe_rate (numerator denominator : Nat) : ℚ :=
  if 0 < denominator then (numerator : ℚ) / denominator else 0

/-- `_lead_scope_filter` from backend/services/lead_kpis.py: ids of the
leads owned by `user_id` when given, else of the leads of `team_id` when
given, else of all leads. -/
def _lead_scope_filter (leads : List Lead) (user_id team_id : Option Nat) :
    List Nat :=
  match user_id with
  | some u => (leads.filter (fun l => l.owner_user_id = u)).map Lead.id
  | none =>
    match team_id with
    | some t => (leads.filter (fun l => l.team_id = t)).map Lead.id
    | none => leads.map Lead.id

/-- The optional upper bound of the query window (`end` is only applied
when supplied). -/
def beforeEnd (period_end : Option Int) (t : Int) : Bool :=
  match period_end with
  | some e => t ≤ e
  | none => true

/-- The leads of the scope whose `created_at` falls in the window
(`lead_ids_in_period` in calculate_funnel_kpis). -/
def leadsInPeriod (leads : List Lead) (lead_ids : List Nat)
    (period_start : Int) (period_end : Option Int) : List Nat :=
  (leads.filter (fun l =>
    l.id ∈ lead_ids && period_start ≤ l.created_at &&
      beforeEnd period_end l.created_at)).map Lead.id

/-- The distinct-lead count behind one group of the `history_stmt`
group-by: distinct leads among `lead_ids` having at least one history entry
with the given `to_status` inside the window. -/
def countStatusDistinct (history : List LeadStatusHistory)
    (lead_ids : List Nat) (period_start : Int) (period_end : Option Int)
    (status : LeadStatus) : Nat :=
  (((history.filter (fun h =>
      h.lead_id ∈ lead_ids && period_start ≤ h.changed_at &&
        beforeEnd period_end h.changed_at && h.to_status = status)).map
    LeadStatusHistory.lead_id).dedup).length

/-- The group-by result rows (`status_counts`): only statuses with at least
one matching lead appear. -/
def statusCountsList (history : List LeadStatusHistory)
    (lead_ids : List Nat) (period_start : Int) (period_end : Option Int) :
    List (LeadStatus × Nat) :=
  allStatuses.filterMap (fun s =>
    if countStatusDistinct history lead_ids period_start period_end s = 0
    then none
    else
      some (s, countStatusDistinct history lead_ids period_start period_end
        s))

/-- `count_status` in calculate_funnel_kpis:
`status_counts.get(status.value, 0)`. -/
def count_status (counts : List (LeadStatus × Nat)) (s : LeadStatus) : Nat :=
  match counts.find? (fun p => p.1 = s) with
  | some p => p.2
  | none => 0

/-- One group of the `reason_stmt` group-by: distinct leads among
`lead_ids` having at least one entry with the given `reason` inside the
window (`reason_counts.get(r, 0)`). -/
def countReasonDistinct (history : List LeadStatusHistory)
    (lead_ids : List Nat) (period_start : Int) (period_end : Option Int)
    (r : String) : Nat :=
  (((history.filter (fun h =>
      h.lead_id ∈ lead_ids && period_start ≤ h.changed_at &&
        beforeEnd period_end h.changed_at && h.reason = some r)).map
    LeadStatusHistory.lead_id).dedup).length

/-- `hours_between` from calculate_time_metrics: `None` when the elapsed
time is negative, else the elapsed seconds divided by 3600. -/
def hours_between (s e : Int) : Option ℚ :=
  if e < s then none else some (((e - s : Int) : ℚ) / 3600)

/-- `average` (`mean(values) if values else 0.0`). -/
def average (values : List ℚ) : ℚ :=
  if values = [] then 0 else values.sum / values.length

/-- The per-lead duration collection step: each candidate timestamp pair
passes through `hours_between`; negative-elapsed pairs are dropped. -/
def collectDurations (pairs : List (Int × Int)) : List ℚ :=
  pairs.filterMap (fun p => hours_between p.1 p.2)

/-- The leads scanned by calculate_time_metrics: in `lead_ids` and created
inside the window. -/
def timeMetricLeads (leads : List Lead) (lead_ids : List Nat)
    (period_start : Int) (period_end : Option Int) : List Lead :=
  leads.filter (fun l =>
    l.id ∈ lead_ids && period_start ≤ l.created_at &&
      beforeEnd period_end l.created_at)

/-- The history rows scanned by calculate_time_metrics: for `lead_ids`,
inside the window. -/
def timeMetricHistories (history : List LeadStatusHistory)
    (lead_ids : List Nat) (period_start : Int) (period_end : Option Int) :
    List LeadStatusHistory :=
  history.filter (fun h =>
    h.lead_id ∈ lead_ids && period_start ≤ h.changed_at &&
      beforeEnd period_end h.changed_at)

/-- One lead's scanned history, ordered by `changed_at` (the query's
`ORDER BY lead_id, changed_at`; ties keep insertion order). -/
def historyForLead (histories : List LeadStatusHistory) (lid : Nat) :
    List LeadStatusHistory :=
  (histories.filter (fun h => h.lead_id = lid)).mergeSort
    (fun a b => a.changed_at ≤ b.changed_at)

/-- `status_times.setdefault`: the first time a lead reached a status in
its scanned history. -/
def firstTimeOf (hist : List LeadStatusHistory) (s : LeadStatus) :
    Option Int :=
  (hist.find? (fun h => h.to_status = s)).map LeadStatusHistory.changed_at

/-- Timestamp pairs for an interval from `created_at` to the first time a
status was reached. -/
def pairsFromCreation (leads : List Lead)
    (histories : List LeadStatusHistory) (s : LeadStatus) :
    List (Int × Int) :=
  leads.filterMap (fun l =>
    match firstTimeOf (historyForLead histories l.id) s with
    | some t => some (l.created_at, t)
    | none => none)

/-- Timestamp pairs for an interval between the first times two statuses
were reached (leads that reached both). -/
def pairsBetweenStatuses (leads : List Lead)
    (histories : List LeadStatusHistory) (sa sb : LeadStatus) :
    List (Int × Int) :=
  leads.filterMap (fun l =>
    match firstTimeOf (historyForLead histories l.id) sa,
        firstTimeOf (historyForLead histories l.id) sb with
    | some a, some b => some (a, b)
    | _, _ => none)

/-- Timestamp pairs of consecutive history entries whose first entry moved
the lead into `s` (`time_in_status`). -/
def dwellPairs (leads : List Lead) (histories : List LeadStatusHistory)
    (s : LeadStatus) : List (Int × Int) :=
  (leads.map (fun l =>
    ((historyForLead histories l.id).zip
        (historyForLead histories l.id).tail).filterMap (fun p =>
      if p.1.to_status = s then some (p.1.changed_at, p.2.changed_at)
      else none))).flatten

/-- `calculate_time_metrics` from backend/services/lead_kpis.py. -/
def calculate_time_metrics (leads : List Lead)
    (history : List LeadStatusHistory) (lead_ids : List Nat)
    (period_start : Int) (period_end : Option Int) : List (String × ℚ) :=
  if lead_ids = [] then []
  else if timeMetricLeads leads lead_ids period_start period_end = [] then []
  else
    let scanned := timeMetricLeads leads lead_ids period_start period_end
    let histories :=
      timeMetricHistories history lead_ids period_start period_end
    [("avgTimeToFirstContactHours",
       average (collectDurations (pairsFromCreation scanned histories
         LeadStatus.CONTACT_ESTABLISHED))),
     ("avgTimeToFirstApptHours",
       average (collectDurations (pairsFromCreation scanned histories
         LeadStatus.FIRST_APPT_SCHEDULED))),
     ("avgTimeToSecondApptHours",
       average (collectDurations (pairsBetweenStatuses scanned histories
         LeadStatus.FIRST_APPT_COMPLETED
         LeadStatus.SECOND_APPT_SCHEDULED))),
     ("avgTimeToClosingHours",
       average (collectDurations (pairsBetweenStatuses scanned histories
         LeadStatus.SECOND_APPT_COMPLETED LeadStatus.CLOSED_WON)))]
    ++ allStatuses.filterMap (fun s =>
         let vals := collectDurations (dwellPairs scanned histories s)
         if vals = [] then none
         else some ("avg_time_in_status_" ++ s.value ++ "Hours",
           average vals))

/-- The result of `calculate_funnel_kpis`; the Python dicts become
association lists. -/
structure FunnelResult where
  leadsCreated : Nat
  statusCounts : List (LeadStatus × Nat)
  conversions : List (String × ℚ)
  dropOffs : List (String × ℚ)
  timeMetrics : List (String × ℚ)
  deriving DecidableEq, Repr

/-- The early-return value: all counts 0, all maps empty. -/
def emptyFunnel : FunnelResult := ⟨0, [], [], [], []⟩

/-- `calculate_funnel_kpis` from backend/services/lead_kpis.py. -/
def calculate_funnel_kpis (leads : List Lead)
    (history : List LeadStatusHistory) (user_id team_id : Option Nat)
    (period_start : Int) (period_end : Option Int) : FunnelResult :=
  if _lead_scope_filter leads user_id team_id = [] then emptyFunnel
  else if leadsInPeriod leads (_lead_scope_filter leads user_id team_id)
      period_start period_end = [] then emptyFunnel
  else
    let lead_ids_in_period :=
      leadsInPeriod leads (_lead_scope_filter leads user_id team_id)
        period_start period_end
    let leads_created := lead_ids_in_period.length
    let status_counts :=
      statusCountsList history lead_ids_in_period period_start period_end
    let cnt := fun s => count_status status_counts s
    let rcnt := fun r =>
      countReasonDistinct history lead_ids_in_period period_start period_end r
    { leadsCreated := leads_created
      statusCounts := status_counts
      conversions :=
        [("contactRate",
           _safe_rate (cnt LeadStatus.CONTACT_ESTABLISHED) leads_created),
         ("firstApptRate",
           _safe_rate (cnt LeadStatus.FIRST_APPT_SCHEDULED)
             (cnt LeadStatus.CONTACT_ESTABLISHED)),
         ("firstApptShowRate",
           _safe_rate (cnt LeadStatus.FIRST_APPT_COMPLETED)
             (cnt LeadStatus.FIRST_APPT_SCHEDULED)),
         ("secondApptRate",
           _safe_rate (cnt LeadStatus.SECOND_APPT_SCHEDULED)
             (cnt LeadStatus.FIRST_APPT_COMPLETED)),
         ("secondApptShowRate",
           _safe_rate (cnt LeadStatus.SECOND_APPT_COMPLETED)
             (cnt LeadStatus.SECOND_APPT_SCHEDULED)),
         ("closingRate",
           _safe_rate (cnt LeadStatus.CLOSED_WON)
             (cnt LeadStatus.SECOND_APPT_COMPLETED))]
      dropOffs :=
        [("callDeclineRate",
           _safe_rate (rcnt "wrong_number" + rcnt "call_declined")
             (cnt LeadStatus.NEW_COLD)),
         ("firstApptDeclineRate",
           _safe_rate (rcnt "first_appt_declined")
             (cnt LeadStatus.FIRST_APPT_SCHEDULED)),
         ("secondApptDeclineRate",
           _safe_rate (rcnt "second_appt_declined")
             (cnt LeadStatus.SECOND_APPT_SCHEDULED)),
         ("noShowRateFirst",
           _safe_rate (rcnt "no_show_first")
             (cnt LeadStatus.FIRST_APPT_SCHEDULED)),
         ("noShowRateSecond",
           _safe_rate (rcnt "no_show_second")
             (cnt LeadStatus.SECOND_APPT_SCHEDULED)),
         ("rescheduleRateFirst",
           _safe_rate (rcnt "rescheduled_first")
             (cnt LeadStatus.FIRST_APPT_SCHEDULED)),
         ("rescheduleRateSecond",
           _safe_rate (rcnt "rescheduled_second")
             (cnt LeadStatus.SECOND_APPT_SCHEDULED))]
      timeMetrics :=
        calculate_time_metrics leads history lead_ids_in_period period_start
          period_end }

/-- C7: when the scope contains no leads, or no lead in scope was created
inside the queried window, the funnel result is the all-zero/empty-maps
value — the computation is total, so no error is ever raised. -/
theorem calculate_funnel_kpis_empty (leads : List Lead)
    (history : List LeadStatusHistory) (user_id team_id : Option Nat)
    (period_start : Int) (period_end : Option Int)
    (hempty : _lead_scope_filter leads user_id team_id = [] ∨
      leadsInPeriod leads (_lead_scope_filter leads user_id team_id)
        period_start period_end = []) :
    calculate_funnel_kpis leads history user_id team_id period_start
        period_end = emptyFunnel := by
  rcases hempty with hscope | hperiod
  · simp [calculate_funnel_kpis, hscope]
  · by_cases hscope : _lead_scope_filter leads user_id team_id = []
    · simp [calculate_funnel_kpis, hscope]
    · simp [calculate_funnel_kpis, hscope, hperiod]

/-- Witness for C7: the empty store. -/
theorem calculate_funnel_kpis_empty_witness :
    (_lead_scope_filter [] none none = [] ∨
      leadsInPeriod [] (_lead_scope_filter [] none none) 0 none = []) ∧
    calculate_funnel_kpis [] [] none none 0 none = emptyFunnel :=
  ⟨Or.inl rfl,
    calculate_funnel_kpis_empty [] [] none none 0 none (Or.inl rfl)⟩

/-- C6: `_safe_rate` yields 0 on a zero denominator, the exact quotient on
a positive one, is always a nonnegative rational (no NaN/infinity, no
error), and the conversions map is either empty (early return) or exactly
the six fixed stage-pair ratios computed with `_safe_rate`. -/
theorem conversions_are_safe_stage_ratios :
    (∀ n : Nat, _safe_rate n 0 = 0) ∧
    (∀ n d : Nat, 0 < d → _safe_rate n d = (n : ℚ) / d) ∧
    (∀ n d : Nat, 0 ≤ _safe_rate n d) ∧
    ∀ (leads : List Lead) (history : List LeadStatusHistory)
      (user_id team_id : Option Nat) (ps : Int) (pe : Option Int),
      (calculate_funnel_kpis leads history user_id team_id ps
          pe).conversions = [] ∨
      (calculate_funnel_kpis leads history user_id team_id ps
          pe).conversions =
        [("contactRate",
           _safe_rate
             (count_status
               (statusCountsList history
                 (leadsInPeriod leads
                   (_lead_scope_filter leads user_id team_id) ps pe) ps pe)
               LeadStatus.CONTACT_ESTABLISHED)
             (leadsInPeriod leads (_lead_scope_filter leads user_id team_id)
               ps pe).length),
         ("firstApptRate",
           _safe_rate
             (count_status
               (statusCountsList history
                 (leadsInPeriod leads
                   (_lead_scope_filter leads user_id team_id) ps pe) ps pe)
               LeadStatus.FIRST_APPT_SCHEDULED)
             (count_status
               (statusCountsList history
                 (leadsInPeriod leads
                   (_lead_scope_filter leads user_id team_id) ps pe) ps pe)
               LeadStatus.CONTACT_ESTABLISHED)),
         ("firstApptShowRate",
           _safe_rate
             (count_status
               (statusCountsList history
                 (leadsInPeriod leads
                   (_lead_scope_filter leads user_id team_id) ps pe) ps pe)
               LeadStatus.FIRST_APPT_COMPLETED)
             (count_status
               (statusCountsList history
                 (leadsInPeriod leads
                   (_lead_scope_filter leads user_id team_id) ps pe) ps pe)
               LeadStatus.FIRST_APPT_SCHEDULED)),
         ("secondApptRate",
           _safe_rate
             (count_status
               (statusCountsList history
                 (leadsInPeriod leads
                   (_lead_scope_filter leads user_id team_id) ps pe) ps pe)
               LeadStatus.SECOND_APPT_SCHEDULED)
             (count_status
               (statusCountsList history
                 (leadsInPeriod leads
                   (_lead_scope_filter leads user_id team_id) ps pe) ps pe)
               LeadStatus.FIRST_APPT_COMPLETED)),
         ("secondApptShowRate",
           _safe_rate
             (count_status
               (statusCountsList history
                 (leadsInPeriod leads
                   (_lead_scope_filter leads user_id team_id) ps pe) ps pe)
               LeadStatus.SECOND_APPT_COMPLETED)
             (count_status
               (statusCountsList history
                 (leadsInPeriod leads
                   (_lead_scope_filter leads user_id team_id) ps pe) ps pe)
               LeadStatus.SECOND_APPT_SCHEDULED)),
         ("closingRate",
           _safe_rate
             (count_status
               (statusCountsList history
                 (leadsInPeriod leads
                   (_lead_scope_filter leads user_id team_id) ps pe) ps pe)
               LeadStatus.CLOSED_WON)
             (count_status
               (statusCountsList history
                 (leadsInPeriod leads
                   (_lead_scope_filter leads user_id team_id) ps pe) ps pe)
               LeadStatus.SECOND_APPT_COMPLETED))] := by
  refine ⟨?_, ?_, ?_, ?_⟩
  · intro n; simp [_safe_rate]
  · intro n d hd; simp [_safe_rate, hd]
  · intro n d
    unfold _safe_rate
    split
    · positivity
    · exact le_refl 0
  · intro leads history user_id team_id ps pe
    by_cases hscope : _lead_scope_filter leads user_id team_id = []
    · left
      simp [calculate_funnel_kpis, hscope, emptyFunnel]
    · by_cases hperiod : leadsInPeriod leads
          (_lead_scope_filter leads user_id team_id) ps pe = []
      · left
        simp [calculate_funnel_kpis, hscope, hperiod, emptyFunnel]
      · right
        simp [calculate_funnel_kpis, hscope, hperiod]

theorem hours_between_nonneg {s e : Int} {v : ℚ}
    (h : hours_between s e = some v) : 0 ≤ v := by
  unfold hours_between at h
  split at h
  · cases h
  · rename_i hcond
    rw [Option.some.injEq] at h
    subst h
    apply div_nonneg _ (by norm_num)
    rw [not_lt] at hcond
    exact_mod_cast Int.sub_nonneg.mpr hcond

theorem collectDurations_nonneg (pairs : List (Int × Int)) :
    ∀ v ∈ collectDurations pairs, 0 ≤ v := by
  intro v hv
  obtain ⟨p, _, hp⟩ := List.mem_filterMap.mp hv
  exact hours_between_nonneg hp

theorem average_collect_nonneg (pairs : List (Int × Int)) :
    0 ≤ average (collectDurations pairs) := by
  unfold average
  split
  · exact le_refl 0
  · apply div_nonneg (List.sum_nonneg (collectDurations_nonneg pairs))
    positivity

/-- C9: a timestamp pair with negative elapsed time yields no duration; a
pair with zero or positive elapsed time yields its exact hour value; the
collected durations of any pair list are exactly those of its
nonnegative-elapsed pairs; and consequently every average in the
time-metric output is nonnegative — negative pairs never contribute. -/
theorem time_metric_negative_pairs_excluded :
    (∀ s e : Int, e < s → hours_between s e = none) ∧
    (∀ s e : Int, s ≤ e →
      hours_between s e = some (((e - s : Int) : ℚ) / 3600)) ∧
    (∀ pairs : List (Int × Int),
      collectDurations pairs
        = (pairs.filter (fun p => p.1 ≤ p.2)).map
            (fun p => ((p.2 - p.1 : Int) : ℚ) / 3600)) ∧
    ∀ (leads : List Lead) (history : List LeadStatusHistory)
      (lead_ids : List Nat) (ps : Int) (pe : Option Int) (kv : String × ℚ),
      kv ∈ calculate_time_metrics leads history lead_ids ps pe →
        0 ≤ kv.2 := by
  refine ⟨?_, ?_, ?_, ?_⟩
  · intro s e h
    rw [hours_between, if_pos h]
  · intro s e h
    rw [hours_between, if_neg (not_lt.mpr h)]
  · intro pairs
    induction pairs with
    | nil => rfl
    | cons p rest ih =>
      rcases p with ⟨a, b⟩
      by_cases hc : a ≤ b
      · have hsome : hours_between a b
            = some (((b - a : Int) : ℚ) / 3600) := by
          rw [hours_between, if_neg (not_lt.mpr hc)]
        simp only [collectDurations, List.filterMap_cons, hsome,
          List.filter_cons] at *
        simp [hc, ih]
      · have hnone : hours_between a b = none := by
          rw [hours_between, if_pos (not_le.mp hc)]
        simp only [collectDurations, List.filterMap_cons, hnone,
          List.filter_cons] at *
        simp [hc, ih]
  · intro leads history lead_ids ps pe kv hkv
    by_cases h1 : lead_ids = []
    · rw [calculate_time_metrics, if_pos h1] at hkv
      cases hkv
    · rw [calculate_time_metrics, if_neg h1] at hkv
      by_cases h2 : timeMetricLeads leads lead_ids ps pe = []
      · rw [if_pos h2] at hkv
        cases hkv
      · rw [if_neg h2] at hkv
        rcases List.mem_append.mp hkv with hkv | hkv
        · simp only [List.mem_cons, List.not_mem_nil, or_false] at hkv
          rcases hkv with h | h | h | h <;>
            (subst h; exact average_collect_nonneg _)
        · obtain ⟨s, _, hs⟩ := List.mem_filterMap.mp hkv
          by_cases hval : collectDurations (dwellPairs
              (timeMetricLeads leads lead_ids ps pe)
              (timeMetricHistories history lead_ids ps pe) s) = []
          · simp only [hval, if_pos, reduceIte] at hs
            cases hs
          · simp only [hval, if_neg, reduceIte] at hs
            rw [Option.some.injEq] at hs
            subst hs
            exact average_collect_nonneg _

theorem find?_countsList_none (c : LeadStatus → Nat)
    (statuses : List LeadStatus) (s : LeadStatus) (hs : s ∉ statuses) :
    (statuses.filterMap (fun x =>
      if c x = 0 then none else some (x, c x))).find?
        (fun p => p.1 = s) = none := by
  induction statuses with
  | nil => rfl
  | cons a l ih =>
    have hne : s ≠ a := fun h => hs (h ▸ List.mem_cons_self a l)
    have hsl : s ∉ l := fun h => hs (List.mem_cons_of_mem a h)
    by_cases hc : c a = 0
    · simp only [List.filterMap_cons, hc, reduceIte]
      exact ih hsl
    · simp only [List.filterMap_cons, hc, reduceIte]
      rw [List.find?_cons]
      have hd : (decide ((a, c a).1 = s)) = false :=
        decide_eq_false fun h => hne h.symm
      simp only [hd]
      exact ih hsl

theorem count_status_countsList (c : LeadStatus → Nat)
    (statuses : List LeadStatus) (s : LeadStatus) (hmem : s ∈ statuses)
    (hnodup : statuses.Nodup) :
    count_status (statuses.filterMap (fun x =>
      if c x = 0 then none else some (x, c x))) s = c s := by
  induction statuses with
  | nil => cases hmem
  | cons a l ih =>
    obtain ⟨hal, hl⟩ := List.nodup_cons.mp hnodup
    rcases List.mem_cons.mp hmem with heq | hmem'
    · subst heq
      by_cases hc : c s = 0
      · simp only [List.filterMap_cons, hc, reduceIte]
        rw [count_status, find?_countsList_none c l s hal]
      · simp only [List.filterMap_cons, hc, reduceIte]
        rw [count_status, List.find?_cons]
        simp
    · have hne : a ≠ s := fun h => hal (h ▸ hmem')
      by_cases hc : c a = 0
      · simp only [List.filterMap_cons, hc, reduceIte]
        exact ih hmem' hl
      · simp only [List.filterMap_cons, hc, reduceIte]
        rw [count_status, List.find?_cons]
        have hd : (decide ((a, c a).1 = s)) = false := decide_eq_false hne
        simp only [hd]
        rw [count_status] at ih
        exact ih hmem' hl

theorem mem_allStatuses (s : LeadStatus) : s ∈ allStatuses := by
  cases s <;> simp [allStatuses]

theorem count_status_statusCountsList (history : List LeadStatusHistory)
    (lead_ids : List Nat) (ps : Int) (pe : Option Int) (s : LeadStatus) :
    count_status (statusCountsList history lead_ids ps pe) s
      = countStatusDistinct history lead_ids ps pe s :=
  count_status_countsList
    (fun x => countStatusDistinct history lead_ids ps pe x) allStatuses s
    (mem_allStatuses s) (by decide)

theorem countStatusDistinct_eq_filter_length
    (history : List LeadStatusHistory) (L : List Nat) (ps : Int)
    (pe : Option Int) (s : LeadStatus) :
    countStatusDistinct history L ps pe s
      = ((L.dedup).filter (fun lid => history.any (fun h =>
          h.lead_id = lid && ps ≤ h.changed_at &&
            beforeEnd pe h.changed_at && h.to_status = s))).length := by
  rw [countStatusDistinct, ← List.card_toFinset]
  have hnd : ((L.dedup).filter (fun lid => history.any (fun h =>
      h.lead_id = lid && ps ≤ h.changed_at &&
        beforeEnd pe h.changed_at && h.to_status = s))).Nodup :=
    (List.nodup_dedup L).filter _
  rw [← List.toFinset_card_of_nodup hnd]
  congr 1
  ext lid
  simp only [List.mem_toFinset, List.mem_map, List.mem_filter,
    List.mem_dedup, List.any_eq_true, Bool.and_eq_true, decide_eq_true_eq]
  constructor
  · rintro ⟨h, ⟨hh, ⟨⟨⟨hin, hps⟩, hbe⟩, hts⟩⟩, rfl⟩
    exact ⟨hin, h, hh, ⟨⟨⟨rfl, hps⟩, hbe⟩, hts⟩⟩
  · rintro ⟨hin, h, hh, ⟨⟨⟨hld, hps⟩, hbe⟩, hts⟩⟩
    exact ⟨h, ⟨hh, ⟨⟨⟨hld ▸ hin, hps⟩, hbe⟩, hts⟩⟩, hld⟩

theorem leadsInPeriod_nil_scope (leads : List Lead) (ps : Int)
    (pe : Option Int) : leadsInPeriod leads [] ps pe = [] := by
  simp [leadsInPeriod]

/-- Written from the spec's words (§4.3 `statusCounts`): the number of
distinct leads IN SCOPE having at least one history entry transitioning to
`status` inside the window — with no restriction on when the lead itself
was created. -/
def specStatusCount (leads : List Lead) (history : List LeadStatusHistory)
    (user_id team_id : Option Nat) (period_start : Int)
    (period_end : Option Int) (status : LeadStatus) : Nat :=
  countStatusDistinct history (_lead_scope_filter leads user_id team_id)
    period_start period_end status

/-- One lead created at time 0, transitioned to CONTACT_ESTABLISHED at
time 6; queried with window start 5. -/
def earlyLeads : List Lead :=
  [⟨0, 1, 1, "A", "p", none, LeadStatus.CONTACT_ESTABLISHED, 6, some 6, 0⟩]

def earlyHistory : List LeadStatusHistory :=
  [⟨0, some 1, LeadStatus.NEW_COLD, LeadStatus.NEW_COLD, 0, some "created",
     none⟩,
   ⟨0, some 1, LeadStatus.NEW_COLD, LeadStatus.CONTACT_ESTABLISHED, 6,
     some "call_answered", none⟩]

/-- Counterexample to C5 as stated: the lead is in scope and transitions to
CONTACT_ESTABLISHED inside the window, but was created before the window
start, so the code reports a `statusCounts` of 0 where the claim demands
1 — the code counts only leads *created* inside the window. -/
theorem statusCounts_scope_counterexample :
    count_status ((calculate_funnel_kpis earlyLeads earlyHistory none none 5
        none).statusCounts) LeadStatus.CONTACT_ESTABLISHED = 0 ∧
    specStatusCount earlyLeads earlyHistory none none 5 none
        LeadStatus.CONTACT_ESTABLISHED = 1 ∧
    (0 : Nat) ≠ 1 := by
  decide

/-- C5 (amended): `statusCounts`, read through the zero-defaulting lookup,
maps each status to the number of distinct leads in scope **created inside
the window** that have at least one history entry transitioning to that
status inside the window; a lead passing through a status several times
counts once. -/
theorem statusCounts_distinct_created_in_window (leads : List Lead)
    (history : List LeadStatusHistory) (user_id team_id : Option Nat)
    (ps : Int) (pe : Option Int) (s : LeadStatus) :
    count_status ((calculate_funnel_kpis leads history user_id team_id ps
        pe).statusCounts) s
      = (((leadsInPeriod leads (_lead_scope_filter leads user_id team_id)
            ps pe).dedup).filter (fun lid => history.any (fun h =>
          h.lead_id = lid && ps ≤ h.changed_at &&
            beforeEnd pe h.changed_at && h.to_status = s))).length := by
  rw [← countStatusDistinct_eq_filter_length]
  by_cases hscope : _lead_scope_filter leads user_id team_id = []
  · rw [hscope, leadsInPeriod_nil_scope]
    have hlhs : calculate_funnel_kpis leads history user_id team_id ps pe
        = emptyFunnel := by
      simp [calculate_funnel_kpis, hscope]
    rw [hlhs]
    simp [emptyFunnel, count_status, countStatusDistinct]
  · by_cases hperiod : leadsInPeriod leads
        (_lead_scope_filter leads user_id team_id) ps pe = []
    · rw [hperiod]
      have hlhs : calculate_funnel_kpis leads history user_id team_id ps pe
          = emptyFunnel := by
        simp [calculate_funnel_kpis, hscope, hperiod]
      rw [hlhs]
      simp [emptyFunnel, count_status, countStatusDistinct]
    · have hlhs : (calculate_funnel_kpis leads history user_id team_id ps
          pe).statusCounts
            = statusCountsList history
                (leadsInPeriod leads
                  (_lead_scope_filter leads user_id team_id) ps pe) ps pe :=
        by simp [calculate_funnel_kpis, hscope, hperiod]
      rw [hlhs, count_status_statusCountsList]

end Onboarding
